import Mathlib

/-!
Shallow embedding of the pedido-request application (Streamlit front end over
a HANA table).  Pure functions of the source are translated to Lean
definitions; pandas frames become lists of records, pandas cells become an
explicit Python-value type, and the Streamlit session-state reducers become
pure functions from state to state.

Modelling conventions, used throughout:
* a pandas cell is a `PyVal` (`vStr`/`vInt`/`vNone`); `Option PyVal` encodes a
  cell whose column may be absent from the row's index (`none` = absent);
* Python `str()` of a cell is `pyStrOf`; `str.upper`/`str.lower`/`str.strip`
  are modelled on the ASCII repertoire (the repertoire exercised by the app's
  data; Unicode case mapping beyond ASCII is not modelled);
* `float()`/`int()` parses are modelled for plain decimal literals (optional
  sign, digits, optional fraction, surrounding blanks); exponent forms,
  underscores, `inf`/`nan` and float rounding are outside the model;
* exceptions become `Except`/`Option` values.
-/

namespace AppSpec

/-- Model of a raw pandas/Python cell value. -/
inductive PyVal where
  | vStr (s : String)
  | vInt (n : Int)
  | vNone
  deriving DecidableEq, Repr

/-- Python `str()` of a cell value (`str(None) = "None"`). -/
def pyStrOf : PyVal → String
  | .vStr s => s
  | .vInt n => toString n
  | .vNone => "None"

/-- Characters Python treats as whitespace in `str.strip()` (ASCII part). -/
def isPySpace (c : Char) : Bool :=
  c = ' ' || c = '\t' || c = '\n' || c = '\r' || c = '\x0b' || c = '\x0c'

/-- Python `str.strip()` (ASCII whitespace model). -/
def pyStrip (s : String) : String :=
  ⟨((s.data.dropWhile isPySpace).reverse.dropWhile isPySpace).reverse⟩

/-- Python `str.upper()` (ASCII model). -/
def pyUpper (s : String) : String := ⟨s.data.map Char.toUpper⟩

/-- Python `str.lower()` (ASCII model). -/
def pyLower (s : String) : String := ⟨s.data.map Char.toLower⟩

/-- Chunks of non-separator characters, separators dropped (`acc` carries the
current chunk reversed). -/
def splitWordsAux (p : Char → Bool) : List Char → List Char → List (List Char)
  | [], acc => if acc.isEmpty then [] else [acc.reverse]
  | c :: cs, acc =>
      if p c then
        if acc.isEmpty then splitWordsAux p cs []
        else acc.reverse :: splitWordsAux p cs []
      else splitWordsAux p cs (c :: acc)

/-- The non-empty chunks a split at separator characters produces. -/
def splitWords (p : Char → Bool) (cs : List Char) : List (List Char) :=
  splitWordsAux p cs []

/-- Value of a digit string (all chars assumed digits). -/
def digitsToNat (cs : List Char) : Nat :=
  cs.foldl (fun acc c => acc * 10 + (c.toNat - 48)) 0

/-- Model of `int(float(s))` for plain decimal literals: optional sign,
integer digits, optional `.` and fraction digits, at least one digit in
total, surrounding blanks allowed; the result is the float truncated toward
zero, i.e. the signed integer part.  Returns `none` when `float(s)` raises. -/
def pyParseFloatTrunc (s : String) : Option Int :=
  let cs := ((s.data.dropWhile isPySpace).reverse.dropWhile isPySpace).reverse
  let sign : Bool × List Char :=
    match cs with
    | '-' :: rest => (true, rest)
    | '+' :: rest => (false, rest)
    | _ => (false, cs)
  let body := sign.2
  let ipart := body.takeWhile (fun c => c ≠ '.')
  let rest := body.dropWhile (fun c => c ≠ '.')
  let ok : Bool :=
    match rest with
    | [] => !ipart.isEmpty && ipart.all Char.isDigit
    | _ :: fpart =>
        ipart.all Char.isDigit && fpart.all Char.isDigit &&
          (!ipart.isEmpty || !fpart.isEmpty) && !fpart.any (fun c => c = '.')
  if ok then
    let ip : Int := Int.ofNat (digitsToNat ipart)
    some (if sign.1 then -ip else ip)
  else
    none

/-- Model of `int(s)` for plain integer literals (optional sign, digits,
surrounding blanks); `none` when `int(s)` raises. -/
def pyParseIntLit (s : String) : Option Int :=
  let cs := ((s.data.dropWhile isPySpace).reverse.dropWhile isPySpace).reverse
  let sign : Bool × List Char :=
    match cs with
    | '-' :: rest => (true, rest)
    | '+' :: rest => (false, rest)
    | _ => (false, cs)
  let body := sign.2
  if !body.isEmpty && body.all Char.isDigit then
    let ip : Int := Int.ofNat (digitsToNat body)
    some (if sign.1 then -ip else ip)
  else
    none

/-! ## app/models/pedido.py -/

/-- The `Pedido` dataclass (`app/models/pedido.py`); `timestamp` holds the
`str()` rendering of the datetime. -/
structure Pedido where
  timestamp : String
  nome : String
  email : String
  utd : String
  base : String
  servico : String
  pacotes : Int
  deriving DecidableEq, Repr

/-- `Pedido.row_key`: newline-join of the seven fields, `int(self.pacotes)`
being the identity on an integer field. -/
def Pedido.row_key (p : Pedido) : String :=
  String.intercalate "\n"
    [p.timestamp, p.nome, p.email, p.utd, p.base, p.servico, toString p.pacotes]

/-- A row of the pedidos frame as consumed by `build_row_key_from_series` and
`build_status_changes`: each field is the cell under the given column,
`none` when the column is absent from the row's index. -/
structure PedidoRow where
  timestamp : Option PyVal
  nome : Option PyVal
  email : Option PyVal
  utd : Option PyVal
  base : Option PyVal
  servico : Option PyVal
  pacotes : Option PyVal
  status : Option PyVal
  deriving DecidableEq, Repr

/-- Python `str(row.get(col, ""))`. -/
def getCellStr (c : Option PyVal) : String := pyStrOf (c.getD (.vStr ""))

/-- The `try: int(float(raw)) except: 0` coercion of the `PACOTES` cell in
`build_row_key_from_series` (`raw = row.get("PACOTES", 0)`). -/
def pacotesKeyInt (c : Option PyVal) : Int :=
  match c.getD (.vInt 0) with
  | .vInt n => n
  | .vStr s => (pyParseFloatTrunc s).getD 0
  | .vNone => 0

/-- `build_row_key_from_series` (`app/models/pedido.py`). -/
def build_row_key_from_series (r : PedidoRow) : String :=
  String.intercalate "\n"
    [getCellStr r.timestamp,
     getCellStr r.nome,
     getCellStr r.email,
     getCellStr r.utd,
     getCellStr r.base,
     getCellStr r.servico,
     toString (pacotesKeyInt r.pacotes)]

/-! ## app/utils/constants.py -/

/-- `Status.EM_ANALISE`. -/
def EM_ANALISE : String := "EM ANALISE"

/-- `Status.APROVADO`. -/
def APROVADO : String := "APROVADO"

/-- `Status.RECUSADO`. -/
def RECUSADO : String := "RECUSADO"

/-- `STATUS_LABEL_MAP` as an association list (insertion order of the dict). -/
def STATUS_LABEL_MAP : List (String × String) :=
  [(EM_ANALISE, "🟡 Pendente"), (APROVADO, "🟢 Aprovado"), (RECUSADO, "🔴 Recusado")]

/-- `STATUS_LABEL_INV`, the inverted dict. -/
def STATUS_LABEL_INV : List (String × String) :=
  STATUS_LABEL_MAP.map (fun p => (p.2, p.1))

/-- Python `dict.get(k, d)` on an association list. -/
def dictGetD (m : List (String × String)) (k d : String) : String :=
  match m.find? (fun p => p.1 == k) with
  | some p => p.2
  | none => d

/-- `label_to_status_db` (`app/models/pedido.py`):
`STATUS_LABEL_INV.get(label, Status.EM_ANALISE)`. -/
def label_to_status_db (label : String) : String :=
  dictGetD STATUS_LABEL_INV label EM_ANALISE

/-- `BASE_GERACAO_OPCOES` (`app/utils/constants.py`). -/
def BASE_GERACAO_OPCOES : List String := ["HOJE", "AMANHÃ", "FIM DE SEMANA"]

/-! ## app/utils/validators.py -/

/-- NFKD decomposition with combining marks removed, per character, for the
Latin accented repertoire used by the app (Portuguese letters).  Characters
outside the table are unchanged (they are their own NFKD normal form in the
data exercised here). -/
def stripAccentChar (c : Char) : Char :=
  if c ∈ ['À', 'Á', 'Â', 'Ã', 'Ä', 'à', 'á', 'â', 'ã', 'ä'] then
    if c.isUpper ∨ c ∈ ['À', 'Á', 'Â', 'Ã', 'Ä'] then 'A' else 'a'
  else if c ∈ ['È', 'É', 'Ê', 'Ë'] then 'E'
  else if c ∈ ['è', 'é', 'ê', 'ë'] then 'e'
  else if c ∈ ['Ì', 'Í', 'Î', 'Ï'] then 'I'
  else if c ∈ ['ì', 'í', 'î', 'ï'] then 'i'
  else if c ∈ ['Ò', 'Ó', 'Ô', 'Õ', 'Ö'] then 'O'
  else if c ∈ ['ò', 'ó', 'ô', 'õ', 'ö'] then 'o'
  else if c ∈ ['Ù', 'Ú', 'Û', 'Ü'] then 'U'
  else if c ∈ ['ù', 'ú', 'û', 'ü'] then 'u'
  else if c = 'Ç' then 'C'
  else if c = 'ç' then 'c'
  else if c = 'Ñ' then 'N'
  else if c = 'ñ' then 'n'
  else c

/-- `strip_accents` (`app/utils/validators.py`): NFKD-normalise and drop
combining marks, modelled per character on the Latin repertoire. -/
def strip_accents (s : String) : String := ⟨s.data.map stripAccentChar⟩

/-- Membership in Python's regex class `[A-Za-z]`. -/
def isAsciiLetter (c : Char) : Bool :=
  ('A' ≤ c && c ≤ 'Z') || ('a' ≤ c && c ≤ 'z')

/-- Membership in Python's regex class `[A-Za-z0-9]`. -/
def isAsciiAlnum (c : Char) : Bool := isAsciiLetter c || c.isDigit

/-- `_NON_ALPHA_REGEX.sub(" ", s)`: every char outside `[A-Za-z\s]` becomes a
space. -/
def subNonAlpha (s : String) : String :=
  ⟨s.data.map (fun c => if isAsciiLetter c || isPySpace c then c else ' ')⟩

/-- `_NON_ALNUM_REGEX.sub(" ", s)`: every char outside `[A-Za-z0-9\s]`
becomes a space. -/
def subNonAlnum (s : String) : String :=
  ⟨s.data.map (fun c => if isAsciiAlnum c || isPySpace c then c else ' ')⟩

/-- `_strip_and_normalise_whitespace`: collapse whitespace runs to one space
and trim.  Modelled as split-on-whitespace / rejoin, which coincides with
`re.sub(r"\s+", " ", s).strip()`. -/
def normWs (s : String) : String :=
  String.intercalate " " ((splitWords isPySpace s.data).map (fun w => (⟨w⟩ : String)))

/-- `strip_accents_and_punct_name` (`app/utils/validators.py`). -/
def strip_accents_and_punct_name (s : String) : String :=
  pyUpper (normWs (subNonAlpha (strip_accents s)))

/-- `strip_accents_and_punct_action` (`app/utils/validators.py`). -/
def strip_accents_and_punct_action (s : String) : String :=
  pyUpper (normWs (subNonAlnum (strip_accents s)))

/-- `_count_words`: number of non-empty chunks when splitting on `" "`. -/
def countWords (s : String) : Nat :=
  (splitWords (fun c => c == ' ') s.data).length

/-- `is_valid_name` (`app/utils/validators.py`). -/
def is_valid_name (s : String) : Bool :=
  countWords (strip_accents_and_punct_name s) ≥ 2

/-- Characters admitted by the local part of `_EMAIL_REGEX`
(`[a-z0-9.\_%\+\-]`). -/
def isEmailLocalChar (c : Char) : Bool :=
  ('a' ≤ c && c ≤ 'z') || c.isDigit || c = '.' || c = '_' || c = '%' || c = '+' || c = '-'

/-- `is_valid_email` (`app/utils/validators.py`): the regex
`^[a-z0-9._%+-]+@neoenergia\.com$` applied to `email.strip().lower()`. -/
def is_valid_email (email : String) : Bool :=
  let s := (pyLower (pyStrip email)).data
  let suffix := "@neoenergia.com".data
  decide (suffix.length ≤ s.length) &&
    (s.drop (s.length - suffix.length) == suffix) &&
    (let localPart := s.take (s.length - suffix.length)
     !localPart.isEmpty && localPart.all isEmailLocalChar)

/-! ## app/utils/time_windows.py -/

/-- A local wall-clock time of day (`datetime.now(TZ).time()`). -/
structure TimeOfDay where
  hour : Nat
  minute : Nat
  second : Nat
  deriving DecidableEq, Repr

/-- `now.time() >= dtime(h, m)`: lexicographic comparison against a time with
zero seconds and microseconds. -/
def timeGE (t : TimeOfDay) (h m : Nat) : Bool :=
  decide (h < t.hour) || (t.hour == h && decide (m ≤ t.minute))

/-- The `TimeWindow` dataclass (`app/utils/time_windows.py`). -/
structure TimeWindow where
  after_10 : Bool
  after_1055 : Bool
  available_options : List String
  default_option : String
  deriving DecidableEq, Repr

/-- `current_time_window` (`app/utils/time_windows.py`), with `now` passed
explicitly. -/
def current_time_window (now : TimeOfDay) : TimeWindow :=
  let after10 := timeGE now 10 0
  let after1055 := timeGE now 10 55
  let available := BASE_GERACAO_OPCOES.filter (fun o => !(after1055 && o == "HOJE"))
  { after_10 := after10
    after_1055 := after1055
    available_options := available
    default_option := available.headD "AMANHÃ" }

/-! ## app/pages/1_Solicitar.py — request-line reconciliation -/

/-- One row of the `lines_df` frame (columns `COLUMNS_ALL`); `PACOTES` is the
integer column, the rest are string columns. -/
structure Line where
  utd : String
  base : String
  turma : String
  geracaoPara : String
  servico : String
  pacotes : Int
  justificativa : String
  comentario : String
  zona : String
  deriving DecidableEq, Repr

/-- `COLUMNS_ALL` (`app/pages/1_Solicitar.py`). -/
def COLUMNS_ALL : List String :=
  ["UTD", "BASE", "TURMA", "GERACAO_PARA", "SERVIÇO", "PACOTES",
   "JUSTIFICATIVA", "COMENTARIO", "ZONA"]

/-- `COLUMNS_SHOW` (`app/pages/1_Solicitar.py`): the columns surfaced in the
editor.  Note it still holds `UTD`, `BASE`, `TURMA`. -/
def COLUMNS_SHOW : List String :=
  ["UTD", "BASE", "TURMA", "GERACAO_PARA", "SERVIÇO", "PACOTES",
   "JUSTIFICATIVA", "COMENTARIO"]

/-- The `f"{utd}\n{base}\n{turma}"` selection key. -/
def key3 (u b t : String) : String := u ++ "\n" ++ b ++ "\n" ++ t

/-- The `KEY` column computed inside `_ensure_rows_for_selected_pairs`. -/
def Line.selKey (r : Line) : String := key3 r.utd r.base r.turma

/-- Flattening of the `utd_base_sel` dict (UTD → list of BASEs, insertion
order) into the (utd, base) pairs visited by the loop. -/
def selPairs (sel : List (String × List String)) : List (String × String) :=
  (sel.map (fun p => p.2.map (fun b => (p.1, b)))).flatten

/-- The `wanted_keys` set, as the list of keys inserted (membership is all
that is consumed). -/
def wantedKeys (sel : List (String × List String)) (turma : String) : List String :=
  (selPairs sel).map (fun p => key3 p.1 p.2 turma)

/-- The `exists` probe: some row matches `(UTD, BASE, TURMA)` exactly. -/
def hasExactPair (lines : List Line) (u b t : String) : Bool :=
  lines.any (fun r => r.utd == u && r.base == b && r.turma == t)

/-- The default row appended for a newly selected pair. -/
def defaultLine (u b t geracaoDefault zona : String) : Line :=
  { utd := u, base := b, turma := t, geracaoPara := geracaoDefault,
    servico := "", pacotes := 1, justificativa := "", comentario := "",
    zona := zona }

/-- The `rows_to_add` list accumulated by the loop, probing the pre-filter
frame. -/
def rowsToAdd (lines : List Line) (sel : List (String × List String))
    (turma geracaoDefault : String) (zonaFor : String → String → String → String) :
    List Line :=
  (selPairs sel).filterMap (fun p =>
    if hasExactPair lines p.1 p.2 turma then none
    else some (defaultLine p.1 p.2 turma geracaoDefault (zonaFor p.1 p.2 turma)))

/-- `_ensure_rows_for_selected_pairs` (`app/pages/1_Solicitar.py`), as a pure
reducer on the line list: keep rows whose `KEY` is wanted, then append the
default rows for pairs with no exact `(UTD, BASE, TURMA)` match.  The
`if not df.empty` and `if rows_to_add` guards coincide with filtering and
appending the empty list.  `zonaFor` stands for the `_zona_for` catalogue
lookup (external reference data). -/
def sync_to_selection (lines : List Line) (sel : List (String × List String))
    (turma geracaoDefault : String) (zonaFor : String → String → String → String) :
    List Line :=
  let wanted := wantedKeys sel turma
  let kept := lines.filter (fun r => wanted.contains r.selKey)
  kept ++ rowsToAdd lines sel turma geracaoDefault zonaFor

/-- Membership of a `(UTD, BASE)` pair in the selection. -/
def pairInSel (sel : List (String × List String)) (u b : String) : Bool :=
  (selPairs sel).any (fun p => p.1 == u && p.2 == b)

/-- A string with no embedded newline (the separator of `key3`). -/
def nlFree (s : String) : Bool := s.data.all (fun c => c ≠ '\n')

/-! ## app/pages/1_Solicitar.py — grid-edit reducer -/

/-- The Streamlit data-editor delta (`st.session_state[EDITOR_KEY]`):
positions to delete, per-position cell changes, and freshly added raw rows.
Dicts are modelled as association lists in iteration order. -/
structure EditorState where
  deleted_rows : List Nat
  edited_rows : List (Nat × List (String × PyVal))
  added_rows : List (List (String × PyVal))
  deriving Repr

/-- `pd.to_numeric(v, errors="coerce").fillna(0).astype(int)` on one cell. -/
def pyToNumericInt (v : PyVal) : Int :=
  match v with
  | .vInt n => n
  | .vStr s => (pyParseFloatTrunc s).getD 0
  | .vNone => 0

/-- Assignment of one cell of a `Line` by column name.  String columns store
the value's text; the `PACOTES` column carries the numeric coercion the
source applies to the whole column right after the edits
(`pd.to_numeric(...).fillna(0).astype(int)`). -/
def applyCell (r : Line) (col : String) (v : PyVal) : Line :=
  if col = "UTD" then { r with utd := pyStrOf v }
  else if col = "BASE" then { r with base := pyStrOf v }
  else if col = "TURMA" then { r with turma := pyStrOf v }
  else if col = "GERACAO_PARA" then { r with geracaoPara := pyStrOf v }
  else if col = "SERVIÇO" then { r with servico := pyStrOf v }
  else if col = "PACOTES" then { r with pacotes := pyToNumericInt v }
  else if col = "JUSTIFICATIVA" then { r with justificativa := pyStrOf v }
  else if col = "COMENTARIO" then { r with comentario := pyStrOf v }
  else if col = "ZONA" then { r with zona := pyStrOf v }
  else r

/-- The inner loop `for col, val in changes.items()` with its guard
`col in df.columns and col in COLUMNS_SHOW` (the frame's columns are
`COLUMNS_ALL`). -/
def applyEdit (r : Line) (changes : List (String × PyVal)) : Line :=
  changes.foldl
    (fun acc c =>
      if COLUMNS_ALL.contains c.1 && COLUMNS_SHOW.contains c.1 then
        applyCell acc c.1 c.2
      else acc)
    r

/-- `df.drop(df.index[deleted]).reset_index(drop=True)`: remove the rows at
the listed positions. -/
def dropIndices (rows : List Line) (deleted : List Nat) : List Line :=
  (rows.enum.filter (fun p => !(deleted.contains p.1))).map Prod.snd

/-- Replacement of the row at one position (`df.at[row_idx, col] = val`
targets; out-of-range positions are left to the frame unchanged). -/
def modifyAt (rows : List Line) (i : Nat) (f : Line → Line) : List Line :=
  match rows, i with
  | [], _ => []
  | r :: rs, 0 => f r :: rs
  | r :: rs, n + 1 => r :: modifyAt rs n f

/-- The `base_row` template of `_apply_editor_changes` merged with the added
row's fields (`{k: v for k, v in new.items() if k in COLUMNS_ALL}`). -/
def addedToLine (geracaoDefault : String) (new : List (String × PyVal)) : Line :=
  (new.filter (fun c => COLUMNS_ALL.contains c.1)).foldl
    (fun acc c => applyCell acc c.1 c.2)
    (defaultLine "" "" "" geracaoDefault "")

/-- `_apply_editor_changes` (`app/pages/1_Solicitar.py`): deletions, then
cell edits on the surviving rows, then appended rows built from the
template. -/
def apply_editor_changes (rows : List Line) (ed : EditorState)
    (geracaoDefault : String) : List Line :=
  let afterDel := dropIndices rows ed.deleted_rows
  let afterEdit :=
    ed.edited_rows.foldl (fun acc e => modifyAt acc e.1 (fun r => applyEdit r e.2)) afterDel
  afterEdit ++ ed.added_rows.map (addedToLine geracaoDefault)

/-! ## app/pages/1_Solicitar.py — submission validator -/

/-- Error message of the name check. -/
def NOME_ERR : String := "Informe ao menos um **Nome** e um **Sobrenome**."

/-- Error message of the email check. -/
def EMAIL_ERR : String :=
  "Informe um **e-mail** válido do domínio **@neoenergia.com**."

/-- Error message of the empty-frame check. -/
def NO_LINES_ERR : String :=
  "Nenhuma linha para enviar. Adicione ao menos uma BASE e configure os serviços."

/-- Error message of a blank required column. -/
def emptyColErr (c : String) : String := "Há linhas com **" ++ c ++ "** vazio."

/-- Error message of the after-cutoff HOJE check. -/
def HOJE_ERR : String :=
  "Após 10:55, **HOJE** não é permitido. Altere para **AMANHÃ** ou **FIM DE SEMANA**."

/-- Error message of the minimum-PACOTES check. -/
def PACOTES_ERR : String := "Há linhas com **PACOTES** inválidos (mín. 1)."

/-- Blank-after-trim probe of a required string column
(`df[col].astype(str).str.strip() == ""`; the frame's string cells are never
NaN on this page, so `isna` adds nothing). -/
def colBlank (lines : List Line) (proj : Line → String) : Bool :=
  lines.any (fun r => pyStrip (proj r) == "")

/-- One row of the prepared output frame (its ordered column set). -/
structure OutRow where
  timestamp : String
  nome : String
  email : String
  cadeia : String
  utd : String
  base : String
  turma : String
  zona : String
  servico : String
  servicoClean : String
  pacotes : Int
  justificativa : String
  comentario : String
  deriving DecidableEq, Repr

/-- The payload construction shared by `_validate_and_prepare_output` and
`prepare_submission_dataframe` once every check passed; `nowTs` stands for
`str(datetime.now(TZ))`, one value for the whole batch. -/
def buildOutput (nome email nowTs : String) (lines : List Line) : List OutRow :=
  let nomeNorm := strip_accents_and_punct_name nome
  let emailNorm := pyLower (pyStrip email)
  lines.map (fun r =>
    let cadeia := pyStrip (pyUpper r.geracaoPara)
    { timestamp := nowTs, nome := nomeNorm, email := emailNorm,
      cadeia := cadeia, utd := r.utd, base := r.base, turma := r.turma,
      zona := r.zona, servico := r.servico,
      servicoClean := strip_accents_and_punct_action r.servico,
      pacotes := r.pacotes, justificativa := r.justificativa,
      comentario := r.comentario })

/-- `_validate_and_prepare_output` (`app/pages/1_Solicitar.py`): the checks
in source order — requester name, requester email, empty frame, the four
required columns in `req_cols` order, the HOJE cutoff, the PACOTES minimum —
then the payload.  `PACOTES` is already the integer column, so its
numeric re-coercion is the identity and its blank probe never fires, as in
the source frame. -/
def validate_and_prepare_output (nome email : String) (lines : List Line)
    (after1055 : Bool) (nowTs : String) : Except String (List OutRow) :=
  if !is_valid_name nome then .error NOME_ERR
  else if !is_valid_email email then .error EMAIL_ERR
  else if lines.isEmpty then .error NO_LINES_ERR
  else if colBlank lines Line.geracaoPara then .error (emptyColErr "GERACAO_PARA")
  else if colBlank lines Line.servico then .error (emptyColErr "SERVIÇO")
  else if colBlank lines (fun r => toString r.pacotes) then .error (emptyColErr "PACOTES")
  else if colBlank lines Line.justificativa then .error (emptyColErr "JUSTIFICATIVA")
  else if after1055 && lines.any (fun r => pyStrip (pyUpper r.geracaoPara) == "HOJE") then
    .error HOJE_ERR
  else if lines.any (fun r => r.pacotes < 1) then .error PACOTES_ERR
  else .ok (buildOutput nome email nowTs lines)

/-- `prepare_submission_dataframe` (`app/services/pedidos_submission.py`):
the extracted service variant — empty frame first, then the required
columns, the cutoff and the minimum; it performs no name or email check. -/
def prepare_submission_dataframe (lines : List Line) (nome email : String)
    (after1055 : Bool) (nowTs : String) : Except String (List OutRow) :=
  if lines.isEmpty then .error NO_LINES_ERR
  else if colBlank lines Line.geracaoPara then .error (emptyColErr "GERACAO_PARA")
  else if colBlank lines Line.servico then .error (emptyColErr "SERVIÇO")
  else if colBlank lines (fun r => toString r.pacotes) then .error (emptyColErr "PACOTES")
  else if colBlank lines Line.justificativa then .error (emptyColErr "JUSTIFICATIVA")
  else if after1055 && lines.any (fun r => pyStrip (pyUpper r.geracaoPara) == "HOJE") then
    .error HOJE_ERR
  else if lines.any (fun r => r.pacotes < 1) then .error PACOTES_ERR
  else .ok (buildOutput nome email nowTs lines)

/-! ## app/repositories/pedidos_repo.py — status-change batching -/

/-- The `StatusChange` dataclass.  Key fields carry the raw cells the row
lookup returned (`row.get(col)`, `none` when the column is absent);
`pacotes` is `int(row.get("PACOTES", 0))`, which the callers only reach with
an integer cell (the fetch layer coerces the column), modelled by the
integer-literal parse with the raising branch collapsed to 0. -/
structure StatusChange where
  timestamp : Option PyVal
  nome : Option PyVal
  email : Option PyVal
  utd : Option PyVal
  base : Option PyVal
  servico : Option PyVal
  pacotes : Int
  status : String
  validado_por : Option String
  deriving DecidableEq, Repr

/-- `int(v)` on a PACOTES cell (see `StatusChange`). -/
def pyIntOf (v : PyVal) : Int :=
  match v with
  | .vInt n => n
  | .vStr s => (pyParseIntLit s).getD 0
  | .vNone => 0

/-- The `lookup` dict `{key: idx}` composed with `df.iloc[idx]`: for a
duplicated key the later row wins, as in the dict comprehension. -/
def lookupRowByKey (rows : List PedidoRow) (key : String) : Option PedidoRow :=
  rows.foldl
    (fun acc r => if build_row_key_from_series r == key then some r else acc)
    none

/-- `str(row.get("STATUS", "")).upper().strip() or Status.EM_ANALISE`: only
the empty string falls back to EM ANALISE. -/
def currentStatusOf (r : PedidoRow) : String :=
  let s := pyStrip (pyUpper (getCellStr r.status))
  if s = "" then EM_ANALISE else s

/-- Construction of one emitted `StatusChange`. -/
def mkChange (row : PedidoRow) (newStatus : String) (adminEmail : Option String)
    (hasValidadoPor : Bool) : StatusChange :=
  { timestamp := row.timestamp, nome := row.nome, email := row.email,
    utd := row.utd, base := row.base, servico := row.servico,
    pacotes := pyIntOf (row.pacotes.getD (.vInt 0)),
    status := newStatus,
    validado_por :=
      if hasValidadoPor && (newStatus == APROVADO || newStatus == RECUSADO) then
        adminEmail
      else none }

/-- `build_status_changes` (`app/repositories/pedidos_repo.py`).  The
`pending_labels` dict is its association list in iteration order. -/
def build_status_changes (rows : List PedidoRow) (pending : List (String × String))
    (adminEmail : Option String) (hasValidadoPor : Bool) : List StatusChange :=
  if rows.isEmpty || pending.isEmpty then []
  else
    pending.foldl
      (fun changes kv =>
        match lookupRowByKey rows kv.1 with
        | none => changes
        | some row =>
          let newStatus := dictGetD STATUS_LABEL_INV kv.2 EM_ANALISE
          if newStatus = currentStatusOf row then changes
          else changes ++ [mkChange row newStatus adminEmail hasValidadoPor])
      []

/-! ## app/repositories/pedidos_repo.py — update_statuses -/

/-- A persisted row of the `BASE_PEDIDOS` table, restricted to the columns
the `UPDATE` touches or matches on. -/
structure DbRow where
  timestamp : PyVal
  nome : PyVal
  email : PyVal
  utd : PyVal
  base : PyVal
  servico : PyVal
  pacotes : Int
  status : PyVal
  validadoPor : PyVal
  deriving DecidableEq, Repr

/-- SQL equality of a bound parameter against a column value: NULL on either
side compares unequal. -/
def sqlEq (param : Option PyVal) (field : PyVal) : Bool :=
  match param, field with
  | some .vNone, _ => false
  | _, .vNone => false
  | some a, b => a == b
  | none, _ => false

/-- The `WHERE` clause of `update_statuses`: conjunction over the seven
natural-key columns. -/
def matchesChange (c : StatusChange) (r : DbRow) : Bool :=
  sqlEq c.timestamp r.timestamp && sqlEq c.nome r.nome && sqlEq c.email r.email &&
    sqlEq c.utd r.utd && sqlEq c.base r.base && sqlEq c.servico r.servico &&
    c.pacotes == r.pacotes

/-- Effect of one executed `UPDATE` statement on the table. -/
def applyChange (hasValidadoPor : Bool) (c : StatusChange) (rows : List DbRow) :
    List DbRow :=
  rows.map (fun r =>
    if matchesChange c r then
      if hasValidadoPor then
        { r with status := .vStr c.status,
                 validadoPor :=
                   match c.validado_por with
                   | some e => .vStr e
                   | none => .vNone }
      else { r with status := .vStr c.status }
    else r)

/-- `update_statuses` (`app/repositories/pedidos_repo.py`) over an explicit
table state: executes every change and returns the new table together with
the function's return value `len(params)` — the number of change tuples,
whatever each of them matched. -/
def update_statuses (changes : List StatusChange) (hasValidadoPor : Bool)
    (db : List DbRow) : List DbRow × Nat :=
  (changes.foldl (fun acc c => applyChange hasValidadoPor c acc) db, changes.length)

/-! ## app/exporters/csv_exporter.py -/

/-- A row of the cluster-config result frame, restricted to the columns the
export grouping consumes: the two grouping cells (`none` = SQL NULL) and the
`SELECIONAR` cell. -/
structure ExportRow where
  turma : Option String
  carteira : Option String
  selecionar : Option String
  deriving DecidableEq, Repr

/-- The input frame of `generate_csv_payloads`; `hasSelecionar` records
whether the `SELECIONAR` column exists at all. -/
structure ExportFrame where
  hasSelecionar : Bool
  rows : List ExportRow
  deriving Repr

/-- `_carteira_suffix` (`app/exporters/csv_exporter.py`). -/
def carteira_suffix (dbCode : String) : String :=
  let code := pyUpper (pyStrip dbCode)
  if code = "COB.DOM" then "domiciliar"
  else if code = "DISJUNTOR" then "disjuntor"
  else pyLower code

/-- `df[selection_col].astype(str).str.upper().eq("SIM")` on one cell
(a missing value stringifies to `"nan"` in pandas, modelled by `"None"`;
both fail the probe). -/
def selMask (r : ExportRow) : Bool :=
  pyUpper (pyStrOf ((r.selecionar.map PyVal.vStr).getD .vNone)) == "SIM"

/-- `_filter_selection` (`app/exporters/csv_exporter.py`). -/
def filterSelection (frame : ExportFrame) (excludeUnselected : Bool) :
    List ExportRow :=
  if !frame.hasSelecionar then frame.rows
  else if excludeUnselected then frame.rows.filter selMask
  else frame.rows.map (fun r =>
    { r with selecionar := some (if selMask r then "SIM" else "NAO") })

/-- One produced payload; `content` is the group's row list (the dropped
auxiliary columns, numeric coercion and `to_csv` serialisation are plain
column-wise rendering, outside what the claims consume). -/
structure CsvPayload where
  turma : String
  carteira : String
  fileName : String
  content : List ExportRow
  deriving DecidableEq, Repr

/-- Strict lexicographic comparison of character lists, the order Python
uses on strings (code-point-wise). -/
def charListLt : List Char → List Char → Bool
  | [], [] => false
  | [], _ :: _ => true
  | _ :: _, [] => false
  | a :: as, b :: bs => if a < b then true else if b < a then false else charListLt as bs

/-- Strict lexicographic order on grouping keys (pandas sorts group keys). -/
def pairLt (a b : String × String) : Bool :=
  charListLt a.1.data b.1.data || (a.1 == b.1 && charListLt a.2.data b.2.data)

/-- Insertion into a sorted key list. -/
def insertSorted (x : String × String) :
    List (String × String) → List (String × String)
  | [] => [x]
  | y :: ys => if pairLt x y then x :: y :: ys else y :: insertSorted x ys

/-- Sort of the grouping keys. -/
def sortPairs (l : List (String × String)) : List (String × String) :=
  l.foldr insertSorted []

/-- The grouping keys of `groupby(["TURMA", "CARTEIRA"], dropna=True)`: the
distinct pairs with both cells non-null, in sorted order. -/
def groupKeys (rows : List ExportRow) : List (String × String) :=
  sortPairs ((rows.filterMap (fun r =>
    match r.turma, r.carteira with
    | some t, some c => some (t, c)
    | _, _ => none)).dedup)

/-- `generate_csv_payloads` (`app/exporters/csv_exporter.py`). -/
def generate_csv_payloads (frame : ExportFrame) (excludeUnselected : Bool) :
    List CsvPayload :=
  if frame.rows.isEmpty then []
  else
    let working := filterSelection frame excludeUnselected
    if working.isEmpty then []
    else
      (groupKeys working).filterMap (fun k =>
        let subset := working.filter (fun r =>
          r.turma == some k.1 && r.carteira == some k.2)
        if subset.isEmpty then none
        else some
          { turma := k.1, carteira := k.2,
            fileName := "config_" ++ pyLower k.1 ++ "_" ++ carteira_suffix k.2 ++ ".csv",
            content := subset })

/-! ## Concrete instances used by counterexamples and witnesses -/

/-- A line whose UTD embeds the newline separator. -/
def exLinesNl : List Line :=
  [{ utd := "A\nB", base := "C", turma := "T", geracaoPara := "", servico := "",
     pacotes := 1, justificativa := "", comentario := "", zona := "" }]

/-- A selection whose only BASE embeds the newline separator. -/
def exSelNl : List (String × List String) := [("A", ["B\nC"])]

/-- A catalogue lookup with no matches. -/
def exZonaNone : String → String → String → String := fun _ _ _ => ""

/-- A plain one-pair selection. -/
def exSelSimple : List (String × List String) := [("U1", ["B1"])]

/-- A pedidos row whose STATUS cell holds the NULL-like string `"NULL"`. -/
def exRowNullStatus : PedidoRow :=
  { timestamp := some (.vStr "2024-01-01 10:00:00"),
    nome := some (.vStr "MARIA SILVA"), email := some (.vStr "maria@x.com"),
    utd := some (.vStr "U1"), base := some (.vStr "B1"),
    servico := some (.vStr "CORTE"), pacotes := some (.vInt 3),
    status := some (.vStr "NULL") }

/-- The natural key of `exRowNullStatus`. -/
def exKeyNullStatus : String := build_row_key_from_series exRowNullStatus

/-- A pedidos row whose STATUS cell already holds `EM ANALISE`. -/
def exRowEmAnalise : PedidoRow :=
  { exRowNullStatus with status := some (.vStr "EM ANALISE") }

/-- The natural key of `exRowEmAnalise`. -/
def exKeyEmAnalise : String := build_row_key_from_series exRowEmAnalise

/-- A pedidos row whose STATUS cell holds `APROVADO`. -/
def exRowAprovado : PedidoRow :=
  { exRowNullStatus with status := some (.vStr "APROVADO") }

/-- The natural key of `exRowAprovado`. -/
def exKeyAprovado : String := build_row_key_from_series exRowAprovado

/-- A one-row line set for the grid-edit counterexample. -/
def exRowsEdit : List Line :=
  [{ utd := "A", base := "B", turma := "T", geracaoPara := "HOJE",
     servico := "Corte", pacotes := 1, justificativa := "j", comentario := "",
     zona := "Z" }]

/-- An edit event that names the UTD column on row 0. -/
def exEdUtd : EditorState :=
  { deleted_rows := [], edited_rows := [(0, [("UTD", .vStr "X")])], added_rows := [] }

/-- A status change whose UTD differs from the only persisted row. -/
def exChangeNoMatch : StatusChange :=
  { timestamp := some (.vStr "TS"), nome := some (.vStr "N"),
    email := some (.vStr "E"), utd := some (.vStr "U"),
    base := some (.vStr "B"), servico := some (.vStr "S"),
    pacotes := 3, status := APROVADO, validado_por := none }

/-- A persisted row the change above fails to match (different UTD). -/
def exDbRowOther : DbRow :=
  { timestamp := .vStr "TS", nome := .vStr "N", email := .vStr "E",
    utd := .vStr "U2", base := .vStr "B", servico := .vStr "S",
    pacotes := 3, status := .vStr "EM ANALISE", validadoPor := .vNone }

/-- The two-row cluster-config frame of the CSV-grouping scenario. -/
def exFrameCsv : ExportFrame :=
  { hasSelecionar := false,
    rows := [{ turma := some "STC", carteira := some "DISJUNTOR", selecionar := none },
             { turma := some "STC", carteira := some "BAIXA", selecionar := none }] }

/-- The DISJUNTOR payload produced from `exFrameCsv`. -/
def exPayloadDisj : CsvPayload :=
  { turma := "STC", carteira := "DISJUNTOR",
    fileName := "config_stc_disjuntor.csv",
    content := [{ turma := some "STC", carteira := some "DISJUNTOR", selecionar := none }] }

/-! ## Theorems -/

/-- C1: the natural-key builders join the seven fields TIMESTAMP, NOME,
E-MAIL, UTD, BASE, SERVICO, PACOTES in exactly that order with a newline
separator, PACOTES being coerced by integer truncation of a float parse
(parse failure yielding 0) and every other field stringified with a missing
cell read as the empty string; consequently two rows identical except that
one carries `pacotes="3.0"` and the other `pacotes=3` produce equal keys. -/
theorem C1_row_key_shape :
    (∀ r : PedidoRow,
      build_row_key_from_series r =
        getCellStr r.timestamp ++ "\n" ++ getCellStr r.nome ++ "\n" ++
          getCellStr r.email ++ "\n" ++ getCellStr r.utd ++ "\n" ++
          getCellStr r.base ++ "\n" ++ getCellStr r.servico ++ "\n" ++
          toString (pacotesKeyInt r.pacotes)) ∧
    (∀ p : Pedido,
      Pedido.row_key p =
        p.timestamp ++ "\n" ++ p.nome ++ "\n" ++ p.email ++ "\n" ++ p.utd ++ "\n" ++
          p.base ++ "\n" ++ p.servico ++ "\n" ++ toString p.pacotes) ∧
    (∀ ts nome email utd base servico st : Option PyVal,
      build_row_key_from_series
          ⟨ts, nome, email, utd, base, servico, some (.vStr "3.0"), st⟩ =
        build_row_key_from_series
          ⟨ts, nome, email, utd, base, servico, some (.vInt 3), st⟩) := by
  refine ⟨fun r => rfl, fun p => rfl, fun ts nome email utd base servico st => rfl⟩

/-- C5: `current_time_window` returns the fixed ordered option list with
HOJE removed exactly when the local time is at or after 10:55, and the
default option is the first remaining entry (AMANHÃ when the list were
empty); at 10:56 HOJE is gone, at 10:54 HOJE is present and is the
default. -/
theorem C5_time_window :
    (∀ now : TimeOfDay,
      (current_time_window now).available_options =
        if timeGE now 10 55 = true then ["AMANHÃ", "FIM DE SEMANA"]
        else BASE_GERACAO_OPCOES) ∧
    (∀ now : TimeOfDay,
      ((current_time_window now).available_options.contains "HOJE" = true ↔
        timeGE now 10 55 = false)) ∧
    (∀ now : TimeOfDay,
      (current_time_window now).default_option =
        (current_time_window now).available_options.headD "AMANHÃ") ∧
    (current_time_window ⟨10, 56, 0⟩).available_options.contains "HOJE" = false ∧
    (current_time_window ⟨10, 54, 0⟩).available_options.contains "HOJE" = true ∧
    (current_time_window ⟨10, 54, 0⟩).default_option = "HOJE" := by
  refine ⟨?_, ?_, fun now => rfl, by decide, by decide, by decide⟩
  · intro now
    cases h : timeGE now 10 55 <;>
      simp [current_time_window, h, BASE_GERACAO_OPCOES]
  · intro now
    cases h : timeGE now 10 55 <;>
      simp [current_time_window, h, BASE_GERACAO_OPCOES]

/-- C4 counterexample: on an input whose line set is empty and whose
requester name is invalid, `_validate_and_prepare_output` raises the
invalid-name error, not the no-lines error the claim requires. -/
theorem C4_counterexample :
    validate_and_prepare_output "" "" [] false "ts" = .error NOME_ERR ∧
      NOME_ERR ≠ NO_LINES_ERR := by
  exact ⟨rfl, by decide⟩

/-- C4 (amended): `_validate_and_prepare_output` short-circuits in the
source order requester-name, requester-email, empty line set, the four
required columns, the HOJE-after-cutoff check, the PACOTES minimum; under an
empty line set with an invalid name the raised error is the invalid-name
error.  The extracted `prepare_submission_dataframe` service checks the
empty line set first but performs no name or email check at all. -/
theorem C4_validation_order :
    (∀ nome email lines a ts, is_valid_name nome = false →
      validate_and_prepare_output nome email lines a ts = .error NOME_ERR) ∧
    (∀ nome email lines a ts, is_valid_name nome = true →
      is_valid_email email = false →
      validate_and_prepare_output nome email lines a ts = .error EMAIL_ERR) ∧
    (∀ nome email a ts, is_valid_name nome = true → is_valid_email email = true →
      validate_and_prepare_output nome email [] a ts = .error NO_LINES_ERR) ∧
    (∀ nome email lines ts, is_valid_name nome = true → is_valid_email email = true →
      lines.isEmpty = false →
      colBlank lines Line.geracaoPara = false → colBlank lines Line.servico = false →
      colBlank lines (fun r => toString r.pacotes) = false →
      colBlank lines Line.justificativa = false →
      lines.any (fun r => pyStrip (pyUpper r.geracaoPara) == "HOJE") = true →
      validate_and_prepare_output nome email lines true ts = .error HOJE_ERR) ∧
    (∀ nome email lines ts, is_valid_name nome = true → is_valid_email email = true →
      lines.isEmpty = false →
      colBlank lines Line.geracaoPara = false → colBlank lines Line.servico = false →
      colBlank lines (fun r => toString r.pacotes) = false →
      colBlank lines Line.justificativa = false →
      lines.any (fun r => r.pacotes < 1) = true →
      validate_and_prepare_output nome email lines false ts = .error PACOTES_ERR) ∧
    (∀ nome email a ts, prepare_submission_dataframe [] nome email a ts = .error NO_LINES_ERR) := by
  refine ⟨?_, ?_, ?_, ?_, ?_, ?_⟩
  · intro nome email lines a ts h
    simp [validate_and_prepare_output, h]
  · intro nome email lines a ts h1 h2
    simp [validate_and_prepare_output, h1, h2]
  · intro nome email a ts h1 h2
    simp [validate_and_prepare_output, h1, h2]
  · intro nome email lines ts h1 h2 h3 h4 h5 h6 h7 h8
    simp [validate_and_prepare_output, h1, h2, h3, h4, h5, h6, h7, h8]
  · intro nome email lines ts h1 h2 h3 h4 h5 h6 h7 h8
    simp [validate_and_prepare_output, h1, h2, h3, h4, h5, h6, h7, h8]
  · intro nome email a ts
    simp [prepare_submission_dataframe]

/-- C4 witness: the amended ordering instantiated at the counterexample
state (empty line set, one-word name). -/
theorem C4_validation_order_witness :
    validate_and_prepare_output "X" "a@neoenergia.com" [] false "ts" = .error NOME_ERR :=
  C4_validation_order.1 "X" "a@neoenergia.com" [] false "ts" (by decide)

/-- C6 counterexample: a row whose STATUS cell holds the NULL-like string
`"NULL"` paired with the pending label 🟡 Pendente (code EM ANALISE) makes
the diff emit a change, although the claim requires NULL-like current
statuses to default to EM ANALISE and the diff to be empty. -/
theorem C6_counterexample :
    build_status_changes [exRowNullStatus] [(exKeyNullStatus, "🟡 Pendente")]
      none false ≠ [] := by
  decide

/-- C6 (amended): the diff emits no change for a pending entry whose mapped
status code equals the row's current status code — the current status
defaulting to EM ANALISE only when the cell is unset or blank after
upper/strip (NULL-like strings are kept verbatim) — and silently skips an
entry whose key matches no row. -/
theorem C6_noop_diff (rows : List PedidoRow) (key label : String)
    (admin : Option String) (hv : Bool)
    (h : ∀ r, lookupRowByKey rows key = some r →
      label_to_status_db label = currentStatusOf r) :
    build_status_changes rows [(key, label)] admin hv = [] := by
  unfold build_status_changes
  cases hre : rows.isEmpty
  · simp only [hre, Bool.false_or, List.isEmpty_cons, if_false]
    simp only [List.foldl_cons, List.foldl_nil]
    cases hl : lookupRowByKey rows key
    · simp
    · next row =>
      have heq := h row hl
      simp only [label_to_status_db] at heq
      simp [heq]
  · simp [hre]

/-- C6 witness: a row already in EM ANALISE with the pending label
🟡 Pendente yields the empty change list. -/
theorem C6_noop_diff_witness :
    build_status_changes [exRowEmAnalise] [(exKeyEmAnalise, "🟡 Pendente")]
      none false = [] :=
  C6_noop_diff [exRowEmAnalise] exKeyEmAnalise "🟡 Pendente" none false
    (by
      intro r hr
      have h1 : lookupRowByKey [exRowEmAnalise] exKeyEmAnalise = some exRowEmAnalise := by
        decide
      rw [h1] at hr
      injection hr with h2
      rw [← h2]
      decide)

/-- C10: the label-to-status mapping is total and fails closed — any label
other than the three known ones maps to EM ANALISE, and the diff treats a
pending entry with such a label exactly as it treats 🟡 Pendente. -/
theorem C10_label_fails_closed (label : String)
    (h1 : label ≠ "🟡 Pendente") (h2 : label ≠ "🟢 Aprovado")
    (h3 : label ≠ "🔴 Recusado") :
    label_to_status_db label = EM_ANALISE ∧
    ∀ rows key admin hv,
      build_status_changes rows [(key, label)] admin hv =
        build_status_changes rows [(key, "🟡 Pendente")] admin hv := by
  have e1 : ("🟡 Pendente" == label) = false := beq_eq_false_iff_ne.mpr (Ne.symm h1)
  have e2 : ("🟢 Aprovado" == label) = false := beq_eq_false_iff_ne.mpr (Ne.symm h2)
  have e3 : ("🔴 Recusado" == label) = false := beq_eq_false_iff_ne.mpr (Ne.symm h3)
  have hmap : dictGetD STATUS_LABEL_INV label EM_ANALISE = EM_ANALISE := by
    simp [dictGetD, STATUS_LABEL_INV, STATUS_LABEL_MAP, List.find?, e1, e2, e3]
  have hpend : dictGetD STATUS_LABEL_INV "🟡 Pendente" EM_ANALISE = EM_ANALISE := by
    decide
  refine ⟨hmap, ?_⟩
  intro rows key admin hv
  unfold build_status_changes
  cases hre : rows.isEmpty
  · simp only [hre, Bool.false_or, List.isEmpty_cons, if_false]
    simp only [List.foldl_cons, List.foldl_nil]
    cases hl : lookupRowByKey rows key
    · simp
    · next row =>
      simp only [hmap, hpend]
  · simp [hre]

/-- C10 witness: the unknown label `"FOO"` maps to EM ANALISE and, on a row
currently in APROVADO, produces the same change list as 🟡 Pendente. -/
theorem C10_label_fails_closed_witness :
    label_to_status_db "FOO" = EM_ANALISE ∧
    build_status_changes [exRowAprovado] [(exKeyAprovado, "FOO")] none false =
      build_status_changes [exRowAprovado] [(exKeyAprovado, "🟡 Pendente")] none false :=
  ⟨(C10_label_fails_closed "FOO" (by decide) (by decide) (by decide)).1,
   (C10_label_fails_closed "FOO" (by decide) (by decide) (by decide)).2
     [exRowAprovado] exKeyAprovado none false⟩

/-- A projection preserved by every fold step is preserved by the fold. -/
theorem foldl_preserved {α β γ : Type} (g : α → β) (f : α → γ → α)
    (h : ∀ a c, g (f a c) = g a) :
    ∀ (l : List γ) (a : α), g (l.foldl f a) = g a := by
  intro l
  induction l with
  | nil => intro a; rfl
  | cons c cs ih => intro a; rw [List.foldl_cons, ih, h]

/-- `applyCell` leaves ZONA alone for every column name other than ZONA. -/
theorem applyCell_zona (r : Line) (col : String) (v : PyVal) (h : col ≠ "ZONA") :
    (applyCell r col v).zona = r.zona := by
  unfold applyCell
  split_ifs <;> rfl

/-- One guarded edit step of `applyEdit` leaves ZONA alone: ZONA is not in
`COLUMNS_SHOW`. -/
theorem applyEditStep_zona (acc : Line) (c : String × PyVal) :
    (if COLUMNS_ALL.contains c.1 && COLUMNS_SHOW.contains c.1 then
        applyCell acc c.1 c.2
      else acc).zona = acc.zona := by
  split
  · next hg =>
    apply applyCell_zona
    intro hz
    rw [hz] at hg
    exact absurd hg (by decide)
  · rfl

/-- `applyEdit` leaves ZONA alone whatever columns the change list names. -/
theorem applyEdit_zona (r : Line) (changes : List (String × PyVal)) :
    (applyEdit r changes).zona = r.zona :=
  foldl_preserved Line.zona _ (fun a c => applyEditStep_zona a c) changes r

/-- `modifyAt` with a ZONA-preserving function preserves the ZONA column. -/
theorem modifyAt_map_zona (f : Line → Line) (hf : ∀ r, (f r).zona = r.zona) :
    ∀ (l : List Line) (i : Nat),
      (modifyAt l i f).map Line.zona = l.map Line.zona := by
  intro l
  induction l with
  | nil => intro i; rfl
  | cons r rs ih =>
    intro i
    cases i with
    | zero => simp [modifyAt, hf]
    | succ n => simp [modifyAt, ih n]

/-- The whole edit fold preserves the ZONA column. -/
theorem editsFold_map_zona (edited : List (Nat × List (String × PyVal)))
    (acc : List Line) :
    (edited.foldl (fun acc e => modifyAt acc e.1 (fun r => applyEdit r e.2)) acc).map
        Line.zona = acc.map Line.zona :=
  foldl_preserved (List.map Line.zona) _
    (fun a e => modifyAt_map_zona _ (fun r => applyEdit_zona r e.2) a e.1) edited acc

/-- C7 counterexample: an edit event naming the UTD column does change a
surviving row's UTD (UTD is in `COLUMNS_SHOW`, so the reducer applies it),
refuting the claim that UTD is untouched whatever columns the event
names. -/
theorem C7_counterexample :
    (apply_editor_changes exRowsEdit exEdUtd "HOJE").map Line.utd ≠
      exRowsEdit.map Line.utd := by
  decide

/-- C7 (amended): cell edits are restricted to the columns of
`COLUMNS_SHOW`, which includes UTD, BASE and TURMA (the UI merely disables
them); ZONA is outside `COLUMNS_SHOW` and is therefore unchanged on every
surviving row, whatever columns the event names. -/
theorem C7_zona_frame :
    ∀ (rows : List Line) (ed : EditorState) (d : String),
      ((apply_editor_changes rows ed d).take
          (dropIndices rows ed.deleted_rows).length).map Line.zona =
        (dropIndices rows ed.deleted_rows).map Line.zona := by
  intro rows ed d
  show ((ed.edited_rows.foldl
          (fun acc e => modifyAt acc e.1 (fun r => applyEdit r e.2))
          (dropIndices rows ed.deleted_rows) ++
          ed.added_rows.map (addedToLine d)).take
        (dropIndices rows ed.deleted_rows).length).map Line.zona =
      (dropIndices rows ed.deleted_rows).map Line.zona
  have hlen : (ed.edited_rows.foldl
      (fun acc e => modifyAt acc e.1 (fun r => applyEdit r e.2))
      (dropIndices rows ed.deleted_rows)).length =
      (dropIndices rows ed.deleted_rows).length := by
    have := congrArg List.length
      (editsFold_map_zona ed.edited_rows (dropIndices rows ed.deleted_rows))
    simpa using this
  rw [← hlen, List.take_left]
  exact editsFold_map_zona ed.edited_rows (dropIndices rows ed.deleted_rows)

/-- A change matching no row of the table leaves the table unchanged. -/
theorem applyChange_frame (hv : Bool) (c : StatusChange) (db : List DbRow)
    (h : ∀ r ∈ db, matchesChange c r = false) : applyChange hv c db = db := by
  unfold applyChange
  calc db.map _ = db.map id := List.map_congr_left (fun r hr => by simp [h r hr])
    _ = db := List.map_id db

/-- A batch of changes matching no row leaves the table unchanged. -/
theorem updateFold_frame (hv : Bool) :
    ∀ (changes : List StatusChange) (db : List DbRow),
      (∀ c ∈ changes, ∀ r ∈ db, matchesChange c r = false) →
      changes.foldl (fun acc c => applyChange hv c acc) db = db := by
  intro changes
  induction changes with
  | nil => intro db _; rfl
  | cons c cs ih =>
    intro db h
    rw [List.foldl_cons, applyChange_frame hv c db (h c (List.mem_cons_self c cs))]
    exact ih db (fun c' hc' r hr => h c' (List.mem_cons_of_mem c hc') r hr)

/-- C8 counterexample: a single change whose UTD differs from the only
persisted row updates nothing, yet `update_statuses` still returns 1 —
the function returns the number of change tuples, not the count of rows
affected. -/
theorem C8_counterexample :
    update_statuses [exChangeNoMatch] false [exDbRowOther] = ([exDbRowOther], 1) := by
  decide

/-- C8 (amended): `update_statuses` matches its target rows by the seven
individual natural-key columns — a row is touched exactly when every one of
TIMESTAMP, NOME, E-MAIL, UTD, BASE, SERVICO, PACOTES compares equal — and
returns the number of submitted change tuples (`len(params)`), which is not
in general the count of rows affected: a batch matching nothing changes no
row yet still reports its own length. -/
theorem C8_update_semantics :
    (∀ changes hv db, (update_statuses changes hv db).2 = changes.length) ∧
    (∀ c r, matchesChange c r = true ↔
      (sqlEq c.timestamp r.timestamp = true ∧ sqlEq c.nome r.nome = true ∧
       sqlEq c.email r.email = true ∧ sqlEq c.utd r.utd = true ∧
       sqlEq c.base r.base = true ∧ sqlEq c.servico r.servico = true ∧
       c.pacotes = r.pacotes)) ∧
    (∀ hv c db, (∀ r ∈ db, matchesChange c r = false) → applyChange hv c db = db) ∧
    (∀ changes hv db, (∀ c ∈ changes, ∀ r ∈ db, matchesChange c r = false) →
      (update_statuses changes hv db).1 = db) := by
  refine ⟨fun _ _ _ => rfl, ?_, applyChange_frame, ?_⟩
  · intro c r
    simp [matchesChange, Bool.and_eq_true, beq_iff_eq, and_assoc]
  · intro changes hv db h
    exact updateFold_frame hv changes db h

/-- C8 witness: the amended semantics instantiated at the no-match state —
the returned count is 1 while the table is unchanged. -/
theorem C8_update_semantics_witness :
    (update_statuses [exChangeNoMatch] false [exDbRowOther]).2 = 1 ∧
    (update_statuses [exChangeNoMatch] false [exDbRowOther]).1 = [exDbRowOther] :=
  ⟨C8_update_semantics.1 [exChangeNoMatch] false [exDbRowOther],
   C8_update_semantics.2.2.2 [exChangeNoMatch] false [exDbRowOther] (by decide)⟩

/-- The key of a selected pair is among the wanted keys. -/
theorem key_mem_wanted (sel : List (String × List String)) (turma : String)
    (p : String × String) (hp : p ∈ selPairs sel) :
    key3 p.1 p.2 turma ∈ wantedKeys sel turma :=
  List.mem_map_of_mem _ hp

/-- Unfolding of the exact-pair probe. -/
theorem hasExactPair_iff (lines : List Line) (u b t : String) :
    hasExactPair lines u b t = true ↔
      ∃ r, r ∈ lines ∧ r.utd = u ∧ r.base = b ∧ r.turma = t := by
  simp [hasExactPair, List.any_eq_true, Bool.and_eq_true, beq_iff_eq, and_assoc]

/-- Characterisation of the rows the sync appends. -/
theorem mem_rowsToAdd (lines : List Line) (sel : List (String × List String))
    (turma d : String) (z : String → String → String → String) (r : Line) :
    r ∈ rowsToAdd lines sel turma d z ↔
      ∃ p ∈ selPairs sel, hasExactPair lines p.1 p.2 turma = false ∧
        r = defaultLine p.1 p.2 turma d (z p.1 p.2 turma) := by
  unfold rowsToAdd
  rw [List.mem_filterMap]
  constructor
  · rintro ⟨p, hp, hf⟩
    cases hex : hasExactPair lines p.1 p.2 turma
    · rw [if_neg (by simp [hex])] at hf
      exact ⟨p, hp, hex, (Option.some.inj hf).symm⟩
    · rw [if_pos (by simp [hex])] at hf
      cases hf
  · rintro ⟨p, hp, hex, rfl⟩
    exact ⟨p, hp, by simp [hex]⟩

/-- After a sync every selected pair owns an exactly matching row. -/
theorem sync_hasExactPair (lines : List Line) (sel : List (String × List String))
    (turma d : String) (z : String → String → String → String)
    (p : String × String) (hp : p ∈ selPairs sel) :
    hasExactPair (sync_to_selection lines sel turma d z) p.1 p.2 turma = true := by
  rw [hasExactPair_iff]
  cases hex : hasExactPair lines p.1 p.2 turma
  · refine ⟨defaultLine p.1 p.2 turma d (z p.1 p.2 turma), ?_, rfl, rfl, rfl⟩
    exact List.mem_append_right _
      ((mem_rowsToAdd lines sel turma d z _).mpr ⟨p, hp, hex, rfl⟩)
  · obtain ⟨r, hr, hu, hb, ht⟩ := (hasExactPair_iff lines p.1 p.2 turma).mp hex
    refine ⟨r, ?_, hu, hb, ht⟩
    apply List.mem_append_left
    refine List.mem_filter.mpr ⟨hr, ?_⟩
    show (wantedKeys sel turma).contains r.selKey = true
    apply List.elem_eq_true_of_mem
    have hk : r.selKey = key3 p.1 p.2 turma := by
      simp [Line.selKey, hu, hb, ht]
    rw [hk]
    exact key_mem_wanted sel turma p hp

/-- When every selected pair already has an exact match nothing is added. -/
theorem rowsToAdd_eq_nil (lines : List Line) (sel : List (String × List String))
    (turma d : String) (z : String → String → String → String)
    (h : ∀ p ∈ selPairs sel, hasExactPair lines p.1 p.2 turma = true) :
    rowsToAdd lines sel turma d z = [] := by
  apply List.filterMap_eq_nil_iff.mpr
  intro p hp
  simp [h p hp]

/-- The output of a sync passes the wanted-keys filter unchanged. -/
theorem sync_filter_wanted (lines : List Line) (sel : List (String × List String))
    (turma d : String) (z : String → String → String → String) :
    (sync_to_selection lines sel turma d z).filter
        (fun r => (wantedKeys sel turma).contains r.selKey) =
      sync_to_selection lines sel turma d z := by
  apply List.filter_eq_self.mpr
  intro r hr
  rcases List.mem_append.mp hr with hk | ha
  · exact (List.mem_filter.mp hk).2
  · obtain ⟨p, hp, _, rfl⟩ := (mem_rowsToAdd lines sel turma d z r).mp ha
    show (wantedKeys sel turma).contains
      (defaultLine p.1 p.2 turma d (z p.1 p.2 turma)).selKey = true
    apply List.elem_eq_true_of_mem
    exact key_mem_wanted sel turma p hp

/-- C2: the selection-sync reducer is idempotent — a second run with the
same selection, turma, default target and catalogue lookup returns the very
line list the first run produced. -/
theorem C2_sync_idempotent (lines : List Line) (sel : List (String × List String))
    (turma d : String) (z : String → String → String → String) :
    sync_to_selection (sync_to_selection lines sel turma d z) sel turma d z =
      sync_to_selection lines sel turma d z := by
  have hadds : rowsToAdd (sync_to_selection lines sel turma d z) sel turma d z = [] :=
    rowsToAdd_eq_nil _ _ _ _ _ (fun p hp => sync_hasExactPair lines sel turma d z p hp)
  show (sync_to_selection lines sel turma d z).filter
      (fun r => (wantedKeys sel turma).contains r.selKey) ++
      rowsToAdd (sync_to_selection lines sel turma d z) sel turma d z =
    sync_to_selection lines sel turma d z
  rw [hadds, List.append_nil, sync_filter_wanted]

/-- A newline-free string has no newline among its characters. -/
theorem not_mem_of_nlFree {s : String} (h : nlFree s = true) : '\n' ∉ s.data := by
  intro hm
  have h2 := List.all_eq_true.mp h _ hm
  simp at h2

/-- Splitting at a separator absent from both prefixes is unambiguous. -/
theorem sep_split_inj (sep : Char) :
    ∀ (xs as ys bs : List Char), sep ∉ xs → sep ∉ as →
      xs ++ sep :: ys = as ++ sep :: bs → xs = as ∧ ys = bs := by
  intro xs
  induction xs with
  | nil =>
    intro as ys bs _ has heq
    cases as with
    | nil =>
      simp only [List.nil_append] at heq
      injection heq with h1 h2
      exact ⟨rfl, h2⟩
    | cons a as' =>
      simp only [List.nil_append, List.cons_append] at heq
      injection heq with h1 h2
      refine absurd ?_ has
      rw [h1]
      exact List.mem_cons_self a as'
  | cons x xs' ih =>
    intro as ys bs hxs has heq
    cases as with
    | nil =>
      simp only [List.cons_append, List.nil_append] at heq
      injection heq with h1 h2
      refine absurd ?_ hxs
      rw [← h1]
      exact List.mem_cons_self x xs'
    | cons a as' =>
      simp only [List.cons_append] at heq
      injection heq with h1 h2
      obtain ⟨e1, e2⟩ := ih as' ys bs
        (fun hm => hxs (List.mem_cons_of_mem x hm))
        (fun hm => has (List.mem_cons_of_mem a hm)) h2
      exact ⟨by rw [h1, e1], e2⟩

/-- Character decomposition of a selection key. -/
theorem key3_data (u b t : String) :
    (key3 u b t).data = u.data ++ '\n' :: (b.data ++ '\n' :: t.data) := by
  simp [key3, String.data_append]

/-- On newline-free UTD and BASE components the selection key is
injective. -/
theorem key3_inj {u1 b1 t1 u2 b2 t2 : String}
    (hu1 : nlFree u1 = true) (hb1 : nlFree b1 = true)
    (hu2 : nlFree u2 = true) (hb2 : nlFree b2 = true)
    (h : key3 u1 b1 t1 = key3 u2 b2 t2) : u1 = u2 ∧ b1 = b2 ∧ t1 = t2 := by
  have hd : u1.data ++ '\n' :: (b1.data ++ '\n' :: t1.data) =
      u2.data ++ '\n' :: (b2.data ++ '\n' :: t2.data) := by
    rw [← key3_data, ← key3_data, h]
  obtain ⟨e1, e2⟩ := sep_split_inj '\n' _ _ _ _
    (not_mem_of_nlFree hu1) (not_mem_of_nlFree hu2) hd
  obtain ⟨e3, e4⟩ := sep_split_inj '\n' _ _ _ _
    (not_mem_of_nlFree hb1) (not_mem_of_nlFree hb2) e2
  exact ⟨String.ext e1, String.ext e3, String.ext e4⟩

/-- C3 counterexample: with a newline embedded in field values a row whose
(UTD, BASE) pair is absent from the selection survives the sync — the
claim's prune clause fails on the joined-key filter. -/
theorem C3_counterexample :
    (sync_to_selection exLinesNl exSelNl "T" "HOJE" exZonaNone).any
        (fun r => !(pairInSel exSelNl r.utd r.base)) = true := by
  decide

/-- C3 (amended): provided no UTD or BASE value among the existing lines or
the selection embeds a newline, after a sync every selected pair has at
least one exactly matching line and every surviving line's (UTD, BASE) pair
belongs to the selection. -/
theorem C3_selection_invariant (lines : List Line) (sel : List (String × List String))
    (turma d : String) (z : String → String → String → String)
    (h1 : ∀ r ∈ lines, nlFree r.utd = true ∧ nlFree r.base = true)
    (h2 : ∀ p ∈ selPairs sel, nlFree p.1 = true ∧ nlFree p.2 = true) :
    (∀ p ∈ selPairs sel,
      hasExactPair (sync_to_selection lines sel turma d z) p.1 p.2 turma = true) ∧
    (∀ r ∈ sync_to_selection lines sel turma d z,
      pairInSel sel r.utd r.base = true) := by
  refine ⟨fun p hp => sync_hasExactPair lines sel turma d z p hp, ?_⟩
  intro r hr
  unfold pairInSel
  apply List.any_eq_true.mpr
  rcases List.mem_append.mp hr with hk | ha
  · obtain ⟨hrl, hpred⟩ := List.mem_filter.mp hk
    have hmem : r.selKey ∈ wantedKeys sel turma := List.mem_of_elem_eq_true hpred
    obtain ⟨p, hp, hkey⟩ := List.mem_map.mp hmem
    obtain ⟨hu, hb⟩ := h2 p hp
    obtain ⟨hru, hrb⟩ := h1 r hrl
    have hkey2 : key3 r.utd r.base r.turma = key3 p.1 p.2 turma := hkey.symm
    obtain ⟨e1, e2, _⟩ := key3_inj hru hrb hu hb hkey2
    exact ⟨p, hp, by simp [e1, e2]⟩
  · obtain ⟨p, hp, _, rfl⟩ := (mem_rowsToAdd lines sel turma d z r).mp ha
    exact ⟨p, hp, by simp [defaultLine]⟩

/-- C3 witness: the amended invariant instantiated at an empty line set and
the one-pair selection (U1, B1) with turma STC. -/
theorem C3_selection_invariant_witness :
    hasExactPair (sync_to_selection [] exSelSimple "STC" "HOJE" exZonaNone)
        "U1" "B1" "STC" = true ∧
    pairInSel exSelSimple (defaultLine "U1" "B1" "STC" "HOJE" "").utd
        (defaultLine "U1" "B1" "STC" "HOJE" "").base = true :=
  ⟨(C3_selection_invariant [] exSelSimple "STC" "HOJE" exZonaNone
      (by simp) (by decide)).1 ("U1", "B1") (by decide),
   (C3_selection_invariant [] exSelSimple "STC" "HOJE" exZonaNone
      (by simp) (by decide)).2
     (defaultLine "U1" "B1" "STC" "HOJE" "") (by decide)⟩

/-- C9: CSV export groups the filtered rows by (TURMA, CARTEIRA) dropping
null grouping values, names every file
`config_{turma_lowercased}_{carteira_suffix}.csv` with COB.DOM mapped to
`domiciliar`, DISJUNTOR to `disjuntor` and any other carteira lower-cased,
produces zero files for an empty input and never an empty file; the two-row
(STC, DISJUNTOR)/(STC, BAIXA) frame yields exactly the files
`config_stc_disjuntor.csv` and `config_stc_baixa.csv`. -/
theorem C9_csv_grouping :
    (∀ hasSel ex, generate_csv_payloads ⟨hasSel, []⟩ ex = []) ∧
    ((generate_csv_payloads exFrameCsv true).map CsvPayload.fileName =
      ["config_stc_baixa.csv", "config_stc_disjuntor.csv"]) ∧
    (carteira_suffix "COB.DOM" = "domiciliar" ∧
      carteira_suffix "DISJUNTOR" = "disjuntor" ∧
      carteira_suffix "Baixa" = "baixa") ∧
    (∀ fr ex p, p ∈ generate_csv_payloads fr ex →
      p.fileName =
          "config_" ++ pyLower p.turma ++ "_" ++ carteira_suffix p.carteira ++ ".csv" ∧
        p.content ≠ [] ∧
        ∀ r ∈ p.content, r.turma = some p.turma ∧ r.carteira = some p.carteira) := by
  refine ⟨fun hasSel ex => rfl, by decide, by decide, ?_⟩
  intro fr ex p hp
  unfold generate_csv_payloads at hp
  cases h1 : fr.rows.isEmpty
  case true => simp [h1] at hp
  case false =>
  simp only [h1, Bool.false_eq_true, if_false] at hp
  cases h2 : (filterSelection fr ex).isEmpty
  case true => simp [h2] at hp
  case false =>
  simp only [h2, Bool.false_eq_true, if_false] at hp
  obtain ⟨k, hk, hf⟩ := List.mem_filterMap.mp hp
  cases h3 : ((filterSelection fr ex).filter
      (fun r => r.turma == some k.1 && r.carteira == some k.2)).isEmpty
  case true => rw [if_pos (by simp [h3])] at hf; cases hf
  case false =>
  rw [if_neg (by simp [h3])] at hf
  have hp2 := Option.some.inj hf
  subst hp2
  refine ⟨rfl, ?_, ?_⟩
  · intro hnil
    have hnil2 : (filterSelection fr ex).filter
        (fun r => r.turma == some k.1 && r.carteira == some k.2) = [] := hnil
    simp [hnil2] at h3
  · intro r hr
    have hpred := (List.mem_filter.mp hr).2
    simp only [Bool.and_eq_true, beq_iff_eq] at hpred
    exact hpred

/-- C9 witness: the general payload shape instantiated at the two-row frame
and its DISJUNTOR payload. -/
theorem C9_csv_grouping_witness :
    exPayloadDisj.fileName =
      "config_" ++ pyLower exPayloadDisj.turma ++ "_" ++
        carteira_suffix exPayloadDisj.carteira ++ ".csv" ∧
    exPayloadDisj.content ≠ [] :=
  ⟨(C9_csv_grouping.2.2.2 exFrameCsv true exPayloadDisj (by decide)).1,
   (C9_csv_grouping.2.2.2 exFrameCsv true exPayloadDisj (by decide)).2.1⟩

end AppSpec
